import Mathlib

/-!
Formal model of the workflow durable-execution core of this repository:
queue-name derivation, target-world resolution, the queue scheduler
(enqueue path and delivery-handler wrapper), the run-creation path of the
run state machine, and the serde registry round-trip.

Functions whose implementation file is present under the source tree
(world-target.ts, the Vector class of serde-models.ts) are translated
directly from that source. Functions whose implementation file is absent
from the source tree, with only their unit tests, declarations or callers
present (getWorkflowQueueName of helpers.ts, queue.ts of world-vercel,
start.ts of the core runtime, the encode/decode serde walk), are modelled
from the specification; each such definition's doc comment starts with
"Modelled from the spec:" and names the missing file.
-/

namespace Workflow

/- ## Queue name derivation (spec section 4.2) -/

/-- Character allow-list for workflow/step logical names: the set
[A-Za-z0-9_\-./@] from the spec's queue-name derivation rule. -/
def workflowNameAllowedChar (c : Char) : Bool :=
  c.isAlphanum || c = '_' || c = '-' || c = '.' || c = '/' || c = '@'

/-- A workflow name is valid when it is non-empty and every character is in
the allow-list. The non-emptiness requirement is fixed by the unit tests
(the empty string throws), matching a validation regex of the form
^[A-Za-z0-9_\-./@]+$ requiring at least one character. -/
def isValidWorkflowName (name : String) : Bool :=
  !name.isEmpty && name.toList.all workflowNameAllowedChar

/-- Modelled from the spec: the implementation of getWorkflowQueueName in
helpers.ts is absent from the source tree; only its unit tests are present.
Queue-name derivation is deterministic from the logical name, validated
against the allow-list before any network call; an invalid name is rejected
with the validation error the tests observe, and a valid name yields the
prefixed physical queue name the tests observe, the name preserved
verbatim. The Except value models throw versus return. -/
def getWorkflowQueueName (name : String) : Except String String :=
  if isValidWorkflowName name then
    Except.ok ("__wkf_workflow_" ++ name)
  else
    Except.error "Invalid workflow name"

/- ## Target-world resolution (world-target.ts, present in source) -/

/-- Environment map restricted to the two variables world-target.ts reads
(the source type WorkflowEnvironment is a string-to-optional-string
record). -/
structure WorkflowEnvironment where
  WORKFLOW_TARGET_WORLD : Option String
  VERCEL_DEPLOYMENT_ID : Option String
  deriving DecidableEq, Repr

/-- Truthiness of an optional environment value as JavaScript evaluates it:
an absent variable and the empty string are falsy, every other string is
truthy. -/
def envTruthy : Option String → Bool
  | some s => !s.isEmpty
  | none => false

/-- Source: world-target.ts resolveWorkflowTargetWorld. Returns the
configured WORKFLOW_TARGET_WORLD when truthy, otherwise the literal
"vercel" when VERCEL_DEPLOYMENT_ID is truthy, otherwise "local". -/
def resolveWorkflowTargetWorld (env : WorkflowEnvironment) : String :=
  if envTruthy env.WORKFLOW_TARGET_WORLD then
    env.WORKFLOW_TARGET_WORLD.getD ""
  else if envTruthy env.VERCEL_DEPLOYMENT_ID then "vercel"
  else "local"

/-- Source: world-target.ts isVercelWorldTarget. -/
def isVercelWorldTarget (targetWorld : String) : Bool :=
  targetWorld == "vercel" || targetWorld == "@workflow/world-vercel"

/-- Source: world-target.ts usesVercelWorld. -/
def usesVercelWorld (env : WorkflowEnvironment) : Bool :=
  isVercelWorldTarget (resolveWorkflowTargetWorld env)

end Workflow

namespace Workflow

/- ## Theorems for queue-name derivation -/

/-- Helper: a name containing a character outside the allow-list fails
validation. -/
theorem isValidWorkflowName_false_of_bad {name : String} {c : Char}
    (hc : c ∈ name.toList) (hbad : workflowNameAllowedChar c = false) :
    isValidWorkflowName name = false := by
  unfold isValidWorkflowName
  have : name.toList.all workflowNameAllowedChar = false := by
    by_contra h
    have h' : name.toList.all workflowNameAllowedChar = true := by
      cases hall : name.toList.all workflowNameAllowedChar
      · exact absurd hall h
      · rfl
    rw [List.all_eq_true] at h'
    have := h' c hc
    rw [hbad] at this
    exact Bool.false_ne_true this
  rw [this]
  simp

/-- C9: the empty string is rejected by getWorkflowQueueName with the
validation error, even though every one of its (zero) characters is in the
allow-list — validity requires at least one character. -/
theorem getWorkflowQueueName_empty_rejected :
    getWorkflowQueueName "" = Except.error "Invalid workflow name"
      ∧ "".toList.all workflowNameAllowedChar = true := by
  constructor
  · rfl
  · rfl

/-- C6 counterexample: the empty string consists only of characters in the
allow-list (vacuously), yet getWorkflowQueueName does not succeed on it —
it throws the validation error. -/
theorem getWorkflowQueueName_allowed_chars_not_sufficient :
    "".toList.all workflowNameAllowedChar = true
      ∧ getWorkflowQueueName "" ≠ Except.ok ("__wkf_workflow_" ++ "") := by
  constructor
  · rfl
  · intro h
    have herr : getWorkflowQueueName "" = Except.error "Invalid workflow name" := rfl
    rw [herr] at h
    exact Except.noConfusion h

/-- C6 (amended): for every non-empty workflow name consisting only of
characters in the allow-list, getWorkflowQueueName succeeds and returns the
prefix "__wkf_workflow_" concatenated with the name verbatim (it is a pure
function of the name); and for every name containing a space or one of the
characters $, #, !, it throws the validation error "Invalid workflow
name". -/
theorem getWorkflowQueueName_spec (name : String) (c : Char) :
    (name.isEmpty = false → name.toList.all workflowNameAllowedChar = true →
        getWorkflowQueueName name = Except.ok ("__wkf_workflow_" ++ name))
      ∧ (c ∈ name.toList → (c = ' ' ∨ c = '$' ∨ c = '#' ∨ c = '!') →
        getWorkflowQueueName name = Except.error "Invalid workflow name") := by
  constructor
  · intro hne hall
    unfold getWorkflowQueueName
    have hval : isValidWorkflowName name = true := by
      unfold isValidWorkflowName
      rw [hne, hall]
      rfl
    rw [hval]
    simp
  · intro hc hbad
    have hnotallowed : workflowNameAllowedChar c = false := by
      rcases hbad with h | h | h | h <;> subst h <;> rfl
    have hval : isValidWorkflowName name = false :=
      isValidWorkflowName_false_of_bad hc hnotallowed
    unfold getWorkflowQueueName
    rw [hval]
    simp

/-- Witness for C6: the valid name "my.workflow" succeeds with the verbatim
prefixed queue name, and the invalid name "my workflow" (containing a
space) throws, both obtained from the amended theorem at concrete
inputs. -/
theorem getWorkflowQueueName_spec_witness :
    getWorkflowQueueName "my.workflow" = Except.ok ("__wkf_workflow_" ++ "my.workflow")
      ∧ getWorkflowQueueName "my workflow" = Except.error "Invalid workflow name" := by
  constructor
  · exact (getWorkflowQueueName_spec "my.workflow" ' ').1 (by decide) (by decide)
  · exact (getWorkflowQueueName_spec "my workflow" ' ').2 (by decide) (Or.inl rfl)

/- ## Theorems for target-world resolution -/

/-- C10 counterexample: in the environment where WORKFLOW_TARGET_WORLD is
absent and VERCEL_DEPLOYMENT_ID is set to the empty string, the variable is
set yet resolveWorkflowTargetWorld returns "local", not "vercel": the code
tests JavaScript truthiness, so an empty-string value falls through to
"local". -/
theorem resolveWorkflowTargetWorld_empty_deployment_counterexample :
    (WorkflowEnvironment.mk none (some "")).VERCEL_DEPLOYMENT_ID = some ""
      ∧ resolveWorkflowTargetWorld (WorkflowEnvironment.mk none (some "")) = "local" := by
  constructor
  · rfl
  · rfl

/-- C10 (amended): resolveWorkflowTargetWorld returns the configured
WORKFLOW_TARGET_WORLD when that variable is set to a non-empty value
(regardless of VERCEL_DEPLOYMENT_ID), otherwise "vercel" when
VERCEL_DEPLOYMENT_ID is set to a non-empty value, otherwise "local"; and
usesVercelWorld is true exactly when the resolved target equals "vercel"
or "@workflow/world-vercel". -/
theorem resolveWorkflowTargetWorld_spec (env : WorkflowEnvironment) (w : String) :
    (env.WORKFLOW_TARGET_WORLD = some w → w ≠ "" →
        resolveWorkflowTargetWorld env = w)
      ∧ (envTruthy env.WORKFLOW_TARGET_WORLD = false →
          envTruthy env.VERCEL_DEPLOYMENT_ID = true →
        resolveWorkflowTargetWorld env = "vercel")
      ∧ (envTruthy env.WORKFLOW_TARGET_WORLD = false →
          envTruthy env.VERCEL_DEPLOYMENT_ID = false →
        resolveWorkflowTargetWorld env = "local")
      ∧ usesVercelWorld env
          = ((resolveWorkflowTargetWorld env == "vercel")
              || (resolveWorkflowTargetWorld env == "@workflow/world-vercel")) := by
  refine ⟨?_, ?_, ?_, ?_⟩
  · intro hset hne
    unfold resolveWorkflowTargetWorld
    have hem : w.isEmpty = false := by
      cases he : w.isEmpty
      · rfl
      · exact absurd ((String.isEmpty_iff w).mp he) hne
    have htruthy : envTruthy env.WORKFLOW_TARGET_WORLD = true := by
      rw [hset]
      unfold envTruthy
      simp [hem]
    rw [htruthy]
    simp [hset]
  · intro hfalse htrue
    unfold resolveWorkflowTargetWorld
    rw [hfalse, htrue]
    rfl
  · intro hfalse hfalse'
    unfold resolveWorkflowTargetWorld
    rw [hfalse, hfalse']
    rfl
  · rfl

/-- Witness for C10: concrete environments exercising each branch of the
amended theorem — a configured world wins, a non-empty deployment id gives
"vercel", an empty environment gives "local", and usesVercelWorld agrees
with the resolved target on a vercel environment. -/
theorem resolveWorkflowTargetWorld_spec_witness :
    resolveWorkflowTargetWorld (WorkflowEnvironment.mk (some "@workflow/world-postgres") (some "deployment-id"))
        = "@workflow/world-postgres"
      ∧ resolveWorkflowTargetWorld (WorkflowEnvironment.mk none (some "deployment-id")) = "vercel"
      ∧ resolveWorkflowTargetWorld (WorkflowEnvironment.mk none none) = "local"
      ∧ usesVercelWorld (WorkflowEnvironment.mk none (some "deployment-id"))
          = ((resolveWorkflowTargetWorld (WorkflowEnvironment.mk none (some "deployment-id")) == "vercel")
              || (resolveWorkflowTargetWorld (WorkflowEnvironment.mk none (some "deployment-id")) == "@workflow/world-vercel")) := by
  refine ⟨?_, ?_, ?_, ?_⟩
  · exact (resolveWorkflowTargetWorld_spec
      (WorkflowEnvironment.mk (some "@workflow/world-postgres") (some "deployment-id"))
      "@workflow/world-postgres").1 rfl (by decide)
  · exact (resolveWorkflowTargetWorld_spec
      (WorkflowEnvironment.mk none (some "deployment-id")) "").2.1 rfl rfl
  · exact (resolveWorkflowTargetWorld_spec
      (WorkflowEnvironment.mk none none) "").2.2.1 rfl rfl
  · exact (resolveWorkflowTargetWorld_spec
      (WorkflowEnvironment.mk none (some "deployment-id")) "").2.2.2

end Workflow

namespace Workflow

/- ## Queue scheduler (world-vercel queue.ts, absent from source; spec
section 4.2 and queue.test.ts) -/

/-- Maximum redelivery delay in seconds: 23 hours, chosen by the spec to
stay under common managed-queue maximum-delay limits. -/
def MAX_DELAY_SECONDS : Nat := 82800

/-- Envelope around a step or workflow-continuation payload, as delivered
to and re-sent by the scheduler: the payload, the logical queue name, and
the deploymentId pinning the code version (optional, matching deliveries
observed in the tests without one). -/
structure QueueMessage (P : Type) where
  payload : P
  queueName : String
  deploymentId : Option String
  deriving DecidableEq, Repr

/-- Continuation request a delivery handler may return, meaning "redeliver
the same logical message after this many seconds". -/
structure ContinuationRequest where
  timeoutSeconds : Nat
  deriving DecidableEq, Repr

/-- One backend client send: the physical queue name it targets, the
message envelope, and the send options (idempotency key for the enqueue
path, delay for the redelivery path). -/
structure SendCall (P : Type) where
  queueName : String
  message : QueueMessage P
  idempotencyKey : Option String
  delaySeconds : Option Nat
  deriving DecidableEq, Repr

/-- Modelled from the spec: the createQueueHandler wrapper of world-vercel
queue.ts is absent from the source tree; only queue.test.ts is present.
The wrapper invokes the user handler on the delivered message; when the
handler returns nothing it performs no send; when the handler returns a
continuation request it performs exactly one send, re-sending the same
message envelope to the same queue with delaySeconds clamped to
MAX_DELAY_SECONDS. The first component lists the backend sends performed;
the second is the wrapper's return value, where none stands for JavaScript
undefined, which makes the backend acknowledge and delete the original
message. -/
def handleQueueMessage {P : Type}
    (handler : QueueMessage P → Option ContinuationRequest)
    (msg : QueueMessage P) : List (SendCall P) × Option Unit :=
  match handler msg with
  | none => ([], none)
  | some c =>
      ([{ queueName := msg.queueName, message := msg, idempotencyKey := none,
          delaySeconds := some (min c.timeoutSeconds MAX_DELAY_SECONDS) }], none)

/-- Receipt returned by a successful queue send. -/
structure SendReceipt where
  messageId : String
  deriving DecidableEq, Repr

/-- Outcome of one backend client send: a delivered message id, a
DuplicateMessageError carrying the duplicated idempotency key, or any
other backend error. -/
inductive SendOutcome where
  | delivered (messageId : String)
  | duplicate (idempotencyKey : String)
  | failure (errorMessage : String)
  deriving DecidableEq, Repr

/-- Resolution of the deploymentId for a queue send: the explicit option
value takes effect when given, otherwise the VERCEL_DEPLOYMENT_ID
environment value; when neither is available the send fails with the
configuration error the tests observe. -/
def resolveDeploymentId (optionsDeploymentId envDeploymentId : Option String) :
    Except String String :=
  match optionsDeploymentId with
  | some d => Except.ok d
  | none =>
      match envDeploymentId with
      | some d => Except.ok d
      | none =>
          Except.error
            "No deploymentId provided and VERCEL_DEPLOYMENT_ID environment variable is not set"

/-- Options accepted by the queue send operation. -/
structure QueueOptions where
  deploymentId : Option String
  idempotencyKey : Option String
  delaySeconds : Option Nat
  deriving DecidableEq, Repr

/-- Modelled from the spec: the queue() enqueue operation of world-vercel
queue.ts is absent from the source tree; only queue.test.ts is present.
It resolves the deploymentId (failing before any send when unresolvable),
performs exactly one backend send, treats a duplicate idempotency-key
report as success returning the deterministic placeholder identity
"msg_duplicate_" concatenated with the duplicated key, and propagates
every other backend error unchanged. Returns the operation result
together with the list of backend sends performed. -/
def queueSend {P : Type} (queueName : String) (payload : P)
    (opts : QueueOptions) (envDeploymentId : Option String)
    (backend : SendCall P → SendOutcome) :
    Except String SendReceipt × List (SendCall P) :=
  match resolveDeploymentId opts.deploymentId envDeploymentId with
  | Except.error e => (Except.error e, [])
  | Except.ok dep =>
      let call : SendCall P :=
        { queueName := queueName,
          message := { payload := payload, queueName := queueName,
                       deploymentId := some dep },
          idempotencyKey := opts.idempotencyKey,
          delaySeconds := opts.delaySeconds }
      match backend call with
      | SendOutcome.delivered mid => (Except.ok { messageId := mid }, [call])
      | SendOutcome.duplicate key =>
          (Except.ok { messageId := "msg_duplicate_" ++ key }, [call])
      | SendOutcome.failure e => (Except.error e, [call])

end Workflow

namespace Workflow

/- ## Theorems for the queue scheduler -/

/-- C1: for every delivered message whose handler returns a continuation
request with timeoutSeconds t, the scheduler performs exactly one
redelivery send — the same envelope to the same queue with delaySeconds
equal to min t MAX_DELAY_SECONDS — and the wrapper returns none
(JavaScript undefined), so the original message is acknowledged/deleted;
in particular the clamp gives 300 at t = 300 and 82800 at t = 100000. -/
theorem handleQueueMessage_redelivery {P : Type} (t : Nat) (msg : QueueMessage P) :
    (handleQueueMessage (fun _ => some { timeoutSeconds := t }) msg).1
        = [{ queueName := msg.queueName, message := msg, idempotencyKey := none,
             delaySeconds := some (min t MAX_DELAY_SECONDS) }]
      ∧ (handleQueueMessage (fun _ => some { timeoutSeconds := t }) msg).2 = none
      ∧ min 300 MAX_DELAY_SECONDS = 300
      ∧ min 100000 MAX_DELAY_SECONDS = 82800 := by
  refine ⟨rfl, rfl, ?_, ?_⟩
  · decide
  · decide

/-- C2: every redelivery send triggered by a continuation request carries
the same payload, queueName, and deploymentId as the delivered message;
and when the handler returns nothing, no send is performed and the wrapper
returns none (the message is acknowledged). -/
theorem handleQueueMessage_frame {P : Type}
    (handler : QueueMessage P → Option ContinuationRequest)
    (msg : QueueMessage P) (c : ContinuationRequest) :
    (handler msg = some c →
        (handleQueueMessage handler msg).1.map
            (fun s => (s.message.payload, s.message.queueName, s.message.deploymentId))
          = [(msg.payload, msg.queueName, msg.deploymentId)])
      ∧ (handler msg = none →
        handleQueueMessage handler msg = ([], none)) := by
  constructor
  · intro hsome
    unfold handleQueueMessage
    rw [hsome]
    rfl
  · intro hnone
    unfold handleQueueMessage
    rw [hnone]

/-- Witness for C2: a concrete delivered message under a handler returning
a continuation request preserves payload, queueName and deploymentId in
its single redelivery send, and under a handler returning nothing no send
is performed; both obtained from the frame theorem at concrete inputs. -/
theorem handleQueueMessage_frame_witness :
    (handleQueueMessage (fun (_ : QueueMessage String) => some { timeoutSeconds := 3600 })
          { payload := "run-123", queueName := "__wkf_workflow_test",
            deploymentId := some "dpl_original" }).1.map
        (fun s => (s.message.payload, s.message.queueName, s.message.deploymentId))
      = [("run-123", "__wkf_workflow_test", some "dpl_original")]
      ∧ handleQueueMessage (fun (_ : QueueMessage String) => none)
          { payload := "run-123", queueName := "__wkf_workflow_test",
            deploymentId := some "dpl_original" }
        = ([], none) := by
  constructor
  · exact (handleQueueMessage_frame (fun _ => some { timeoutSeconds := 3600 })
      { payload := "run-123", queueName := "__wkf_workflow_test",
        deploymentId := some "dpl_original" } { timeoutSeconds := 3600 }).1 rfl
  · exact (handleQueueMessage_frame (fun _ => none)
      { payload := "run-123", queueName := "__wkf_workflow_test",
        deploymentId := some "dpl_original" } { timeoutSeconds := 3600 }).2 rfl

/-- C3: when the deploymentId resolves and the backend reports a duplicate
idempotencyKey, queueSend returns success (not an error) with the
deterministic placeholder messageId "msg_duplicate_" concatenated with the
duplicated key, and performs exactly one backend send (no further resend);
and every other backend error propagates to the caller unchanged. -/
theorem queueSend_duplicate_suppressed {P : Type} (queueName : String) (payload : P)
    (opts : QueueOptions) (envDeploymentId : Option String)
    (key errorMessage dep : String)
    (hdep : resolveDeploymentId opts.deploymentId envDeploymentId = Except.ok dep) :
    (queueSend queueName payload opts envDeploymentId
          (fun _ => SendOutcome.duplicate key)).1
        = Except.ok { messageId := "msg_duplicate_" ++ key }
      ∧ (queueSend queueName payload opts envDeploymentId
          (fun _ => SendOutcome.duplicate key)).2.length = 1
      ∧ (queueSend queueName payload opts envDeploymentId
          (fun _ => SendOutcome.failure errorMessage)).1
        = Except.error errorMessage := by
  refine ⟨?_, ?_, ?_⟩
  · unfold queueSend
    rw [hdep]
  · unfold queueSend
    rw [hdep]
    rfl
  · unfold queueSend
    rw [hdep]

/-- Witness for C3: with the environment deploymentId "dpl_test" and a
backend reporting a duplicate of key "my-key", the send returns success
with messageId "msg_duplicate_my-key" after exactly one backend send, and
a backend failing with "Some other error" propagates it; obtained from the
duplicate-suppression theorem at concrete inputs. -/
theorem queueSend_duplicate_suppressed_witness :
    (queueSend "__wkf_workflow_test" "run-123"
          { deploymentId := none, idempotencyKey := some "my-key", delaySeconds := none }
          (some "dpl_test") (fun _ => SendOutcome.duplicate "my-key")).1
        = Except.ok { messageId := "msg_duplicate_my-key" }
      ∧ (queueSend "__wkf_workflow_test" "run-123"
          { deploymentId := none, idempotencyKey := some "my-key", delaySeconds := none }
          (some "dpl_test") (fun _ => SendOutcome.duplicate "my-key")).2.length = 1
      ∧ (queueSend "__wkf_workflow_test" "run-123"
          { deploymentId := none, idempotencyKey := some "my-key", delaySeconds := none }
          (some "dpl_test") (fun _ => SendOutcome.failure "Some other error")).1
        = Except.error "Some other error" := by
  have h := queueSend_duplicate_suppressed "__wkf_workflow_test" "run-123"
    { deploymentId := none, idempotencyKey := some "my-key", delaySeconds := none }
    (some "dpl_test") "my-key" "Some other error" "dpl_test" rfl
  exact ⟨h.1, h.2.1, h.2.2⟩

/-- C7: when options carry no deploymentId and the VERCEL_DEPLOYMENT_ID
environment variable is not set, queueSend fails with the configuration
error "No deploymentId provided and VERCEL_DEPLOYMENT_ID environment
variable is not set" and performs no backend send; when either is
available the send succeeds (the backend delivering) and the single
backend send is routed with the resolved deploymentId — the options value
when given, the environment value otherwise. -/
theorem queueSend_deployment_resolution {P : Type} (queueName : String) (payload : P)
    (opts : QueueOptions) (envDeploymentId : Option String) (mid d : String) :
    (opts.deploymentId = none → envDeploymentId = none →
        queueSend queueName payload opts envDeploymentId
            (fun _ => SendOutcome.delivered mid)
          = (Except.error
              "No deploymentId provided and VERCEL_DEPLOYMENT_ID environment variable is not set",
             []))
      ∧ (opts.deploymentId = some d →
          (queueSend queueName payload opts envDeploymentId
              (fun _ => SendOutcome.delivered mid)).1 = Except.ok { messageId := mid }
          ∧ (queueSend queueName payload opts envDeploymentId
              (fun _ => SendOutcome.delivered mid)).2.map
                (fun s => s.message.deploymentId) = [some d])
      ∧ (opts.deploymentId = none → envDeploymentId = some d →
          (queueSend queueName payload opts envDeploymentId
              (fun _ => SendOutcome.delivered mid)).1 = Except.ok { messageId := mid }
          ∧ (queueSend queueName payload opts envDeploymentId
              (fun _ => SendOutcome.delivered mid)).2.map
                (fun s => s.message.deploymentId) = [some d]) := by
  refine ⟨?_, ?_, ?_⟩
  · intro hopt henv
    unfold queueSend resolveDeploymentId
    rw [hopt, henv]
  · intro hopt
    have hdep : resolveDeploymentId opts.deploymentId envDeploymentId = Except.ok d := by
      unfold resolveDeploymentId
      rw [hopt]
    constructor
    · unfold queueSend
      rw [hdep]
    · unfold queueSend
      rw [hdep]
      rfl
  · intro hopt henv
    have hdep : resolveDeploymentId opts.deploymentId envDeploymentId = Except.ok d := by
      unfold resolveDeploymentId
      rw [hopt, henv]
    constructor
    · unfold queueSend
      rw [hdep]
    · unfold queueSend
      rw [hdep]
      rfl

/-- Witness for C7: with neither source available the concrete send fails
with the configuration error and no backend send; with the explicit option
"dpl_123" the send succeeds routed to "dpl_123"; with only the environment
value "dpl_env_123" the send succeeds routed to "dpl_env_123"; all
obtained from the resolution theorem at concrete inputs. -/
theorem queueSend_deployment_resolution_witness :
    queueSend "__wkf_workflow_test" "run-123"
          { deploymentId := none, idempotencyKey := none, delaySeconds := none }
          none (fun _ => SendOutcome.delivered "msg-123")
        = (Except.error
            "No deploymentId provided and VERCEL_DEPLOYMENT_ID environment variable is not set",
           [])
      ∧ (queueSend "__wkf_workflow_test" "run-123"
          { deploymentId := some "dpl_123", idempotencyKey := none, delaySeconds := none }
          none (fun _ => SendOutcome.delivered "msg-123")).1
        = Except.ok { messageId := "msg-123" }
      ∧ (queueSend "__wkf_workflow_test" "run-123"
          { deploymentId := none, idempotencyKey := none, delaySeconds := none }
          (some "dpl_env_123") (fun _ => SendOutcome.delivered "msg-123")).2.map
            (fun s => s.message.deploymentId)
        = [some "dpl_env_123"] := by
  refine ⟨?_, ?_, ?_⟩
  · exact (queueSend_deployment_resolution "__wkf_workflow_test" "run-123"
      { deploymentId := none, idempotencyKey := none, delaySeconds := none }
      none "msg-123" "d").1 rfl rfl
  · exact ((queueSend_deployment_resolution "__wkf_workflow_test" "run-123"
      { deploymentId := some "dpl_123", idempotencyKey := none, delaySeconds := none }
      none "msg-123" "dpl_123").2.1 rfl).1
  · exact ((queueSend_deployment_resolution "__wkf_workflow_test" "run-123"
      { deploymentId := none, idempotencyKey := none, delaySeconds := none }
      (some "dpl_env_123") "msg-123" "dpl_env_123").2.2 rfl rfl).2

end Workflow

namespace Workflow

/- ## Run creation (core runtime start.ts, absent from source; spec
section 4.1 and start.test.ts) -/

/-- Runtime error raised by start on a programmer error: error kind and
message. -/
structure WorkflowRuntimeError where
  kind : String
  message : String
  deriving DecidableEq, Repr

/-- The single error start raises for every invalid workflow reference:
kind invalid-workflow (spec section 4.1), message as asserted by
start.test.ts. -/
def invalidWorkflowFunctionError : WorkflowRuntimeError :=
  { kind := "invalid-workflow",
    message := "\x27start\x27 received an invalid workflow function. Ensure the Workflow Development Kit is configured correctly and the function includes a \x27use workflow\x27 directive." }

/-- The reference passed to start as its workflow function: JavaScript
undefined, null, or a function value carrying an optional workflowId
property. -/
inductive WorkflowRef where
  | undef
  | null
  | fn (workflowId : Option String)
  deriving DecidableEq, Repr

/-- Modelled from the spec: the spec-version constants of the world package
are absent from the source tree. The current event-encoding schema version
and the legacy one; the tests pass the literal 1 as a legacy version. -/
def SPEC_VERSION_CURRENT : Nat := 2

/-- Legacy spec version, strictly below the current one. -/
def SPEC_VERSION_LEGACY : Nat := 1

/-- Options accepted by start. -/
structure StartOptions where
  specVersion : Option Nat
  deriving DecidableEq, Repr

/-- The run_created event datum start writes: event type and the spec
version of the event encoding. -/
structure RunCreatedEvent where
  eventType : String
  specVersion : Nat
  deriving DecidableEq, Repr

/-- Options passed alongside events.create, carrying the v1Compat flag
consumed by downstream encoding. -/
structure EventsCreateOptions where
  v1Compat : Bool
  deriving DecidableEq, Repr

/-- A World operation performed by start: the run_created append or the
enqueue of the initial workflow invocation. -/
inductive WorldCall where
  | eventsCreate (runId : String) (event : RunCreatedEvent) (opts : EventsCreateOptions)
  | enqueueInitial (runId : String)
  deriving DecidableEq, Repr

/-- The workflowId a reference exposes, when it is a function value with
that property; undefined and null expose none. -/
def workflowIdOf : WorkflowRef → Option String
  | WorkflowRef.undef => none
  | WorkflowRef.null => none
  | WorkflowRef.fn workflowId => workflowId

/-- Modelled from the spec: start.ts of the core runtime is absent from the
source tree; only start.test.ts is present. start validates that the
workflow reference exposes a non-empty workflowId, failing with the single
invalid-workflow runtime error before any World operation when it does
not; otherwise it writes run_created with the requested specVersion
(defaulting to SPEC_VERSION_CURRENT) and a v1Compat flag set exactly when
an explicit legacy (below-current) version was requested, then enqueues
the initial invocation. The runId is generated client-side before any
network round trip and is taken here as the oracle argument runId. -/
def start (workflowFn : WorkflowRef) (opts : StartOptions) (runId : String) :
    Except WorkflowRuntimeError String × List WorldCall :=
  match workflowIdOf workflowFn with
  | none => (Except.error invalidWorkflowFunctionError, [])
  | some name =>
      if name = "" then (Except.error invalidWorkflowFunctionError, [])
      else
        let v := opts.specVersion.getD SPEC_VERSION_CURRENT
        (Except.ok runId,
         [WorldCall.eventsCreate runId
            { eventType := "run_created", specVersion := v }
            { v1Compat := decide (v < SPEC_VERSION_CURRENT) },
          WorldCall.enqueueInitial runId])

end Workflow

namespace Workflow

/- ## Theorems for run creation -/

/-- C4: start with an undefined reference, a null reference, a function
without a workflowId property, or a function with an empty-string
workflowId fails in all four cases with the same WorkflowRuntimeError —
same kind, same message — and performs no World operation. -/
theorem start_invalid_workflow (opts : StartOptions) (runId : String) :
    start WorkflowRef.undef opts runId = (Except.error invalidWorkflowFunctionError, [])
      ∧ start WorkflowRef.null opts runId = (Except.error invalidWorkflowFunctionError, [])
      ∧ start (WorkflowRef.fn none) opts runId
        = (Except.error invalidWorkflowFunctionError, [])
      ∧ start (WorkflowRef.fn (some "")) opts runId
        = (Except.error invalidWorkflowFunctionError, []) := by
  refine ⟨rfl, rfl, rfl, ?_⟩
  unfold start workflowIdOf
  simp

/-- C5: for every valid workflow reference (non-empty workflowId), start
with no explicit specVersion writes run_created with
specVersion = SPEC_VERSION_CURRENT and option v1Compat = false, and start
with an explicit legacy (below-current) specVersion writes that version
with v1Compat = true; in both cases the initial invocation is enqueued. -/
theorem start_specVersion (name runId : String) (hname : name ≠ "")
    (v : Nat) (hv : v < SPEC_VERSION_CURRENT) :
    start (WorkflowRef.fn (some name)) { specVersion := none } runId
        = (Except.ok runId,
           [WorldCall.eventsCreate runId
              { eventType := "run_created", specVersion := SPEC_VERSION_CURRENT }
              { v1Compat := false },
            WorldCall.enqueueInitial runId])
      ∧ start (WorkflowRef.fn (some name)) { specVersion := some v } runId
        = (Except.ok runId,
           [WorldCall.eventsCreate runId
              { eventType := "run_created", specVersion := v }
              { v1Compat := true },
            WorldCall.enqueueInitial runId]) := by
  constructor
  · unfold start workflowIdOf
    simp [hname]
  · unfold start workflowIdOf
    simp [hname, hv]

/-- Witness for C5: starting the workflow "test-workflow" with run id
"wrun_test123" writes run_created with the current spec version and
v1Compat false when no version is given, and with the legacy version 1 and
v1Compat true when version 1 is requested; obtained from the specVersion
theorem at concrete inputs. -/
theorem start_specVersion_witness :
    start (WorkflowRef.fn (some "test-workflow")) { specVersion := none } "wrun_test123"
        = (Except.ok "wrun_test123",
           [WorldCall.eventsCreate "wrun_test123"
              { eventType := "run_created", specVersion := SPEC_VERSION_CURRENT }
              { v1Compat := false },
            WorldCall.enqueueInitial "wrun_test123"])
      ∧ start (WorkflowRef.fn (some "test-workflow")) { specVersion := some 1 } "wrun_test123"
        = (Except.ok "wrun_test123",
           [WorldCall.eventsCreate "wrun_test123"
              { eventType := "run_created", specVersion := 1 }
              { v1Compat := true },
            WorldCall.enqueueInitial "wrun_test123"]) :=
  start_specVersion "test-workflow" "wrun_test123" (by decide) 1 (by decide)

end Workflow

namespace Workflow

/- ## Serde registry (spec section 4.3; Vector class from serde-models.ts,
present in source) -/

mutual

/-- Runtime value universe crossing the serde boundary: JavaScript
primitives, arrays, plain objects, and the Vector class instance of
serde-models.ts (the registered custom class of the source tree), carrying
its x, y, z fields. -/
inductive Value where
  | num (n : Int)
  | str (s : String)
  | boolean (b : Bool)
  | null
  | arr (elems : ValueList)
  | obj (fields : FieldList)
  | vector (x y z : Int)

/-- Contents of a JavaScript array of values. -/
inductive ValueList where
  | nil
  | cons (head : Value) (tail : ValueList)

/-- Fields of a plain JavaScript object, in order. -/
inductive FieldList where
  | nil
  | cons (key : String) (value : Value) (tail : FieldList)

end

mutual

/-- Wire form produced by encode: primitives, arrays and plain structures
pass through, and a registered class instance becomes a tagged envelope of
its identity tag and serialized data. -/
inductive Wire where
  | num (n : Int)
  | str (s : String)
  | boolean (b : Bool)
  | null
  | arr (elems : WireList)
  | obj (fields : WireFieldList)
  | tagged (tag : String) (data : Wire)

/-- Contents of an array on the wire. -/
inductive WireList where
  | nil
  | cons (head : Wire) (tail : WireList)

/-- Fields of a plain object on the wire, in order. -/
inductive WireFieldList where
  | nil
  | cons (key : String) (value : Wire) (tail : WireFieldList)

end

/-- Source: serde-models.ts Vector static workflow-serialize method —
converts the instance to the plain object of its x, y, z fields. -/
def serializeVector (x y z : Int) : Wire :=
  Wire.obj (WireFieldList.cons "x" (Wire.num x)
    (WireFieldList.cons "y" (Wire.num y)
      (WireFieldList.cons "z" (Wire.num z) WireFieldList.nil)))

/-- Source: serde-models.ts Vector static workflow-deserialize method —
reconstructs the instance from the plain object of its x, y, z fields;
none models failure on malformed data. -/
def deserializeVector : Wire → Option Value
  | Wire.obj (WireFieldList.cons "x" (Wire.num x)
      (WireFieldList.cons "y" (Wire.num y)
        (WireFieldList.cons "z" (Wire.num z) WireFieldList.nil))) =>
      some (Value.vector x y z)
  | _ => none

/-- The deserializer the registry holds for an identity tag: the source
tree registers exactly the Vector class under the tag "Vector". -/
def registryDeserialize (tag : String) : Option (Wire → Option Value) :=
  if tag = "Vector" then some deserializeVector else none

mutual

/-- Modelled from the spec: the encode walk of the serde registry is absent
from the source tree. It walks the value recursively, including array and
nested-object structures; a value of a registered class is replaced by the
tagged envelope of its identity tag and serialized data; primitive and
plain-structure values pass through unchanged. -/
def encode : Value → Wire
  | Value.num n => Wire.num n
  | Value.str s => Wire.str s
  | Value.boolean b => Wire.boolean b
  | Value.null => Wire.null
  | Value.arr elems => Wire.arr (encodeList elems)
  | Value.obj fields => Wire.obj (encodeFields fields)
  | Value.vector x y z => Wire.tagged "Vector" (serializeVector x y z)

/-- Encode walk over array contents. -/
def encodeList : ValueList → WireList
  | ValueList.nil => WireList.nil
  | ValueList.cons v t => WireList.cons (encode v) (encodeList t)

/-- Encode walk over plain-object fields. -/
def encodeFields : FieldList → WireFieldList
  | FieldList.nil => WireFieldList.nil
  | FieldList.cons k v t => WireFieldList.cons k (encode v) (encodeFields t)

end

mutual

/-- Modelled from the spec: the decode walk of the serde registry is absent
from the source tree. It is the inverse walk: a tagged envelope is
rehydrated via the deserializer looked up by tag, an unknown tag fails
with a deserialization error rather than silently producing a plain
object, and malformed registered data fails as well. -/
def decode : Wire → Except String Value
  | Wire.num n => Except.ok (Value.num n)
  | Wire.str s => Except.ok (Value.str s)
  | Wire.boolean b => Except.ok (Value.boolean b)
  | Wire.null => Except.ok Value.null
  | Wire.arr elems =>
      match decodeList elems with
      | Except.ok vs => Except.ok (Value.arr vs)
      | Except.error e => Except.error e
  | Wire.obj fields =>
      match decodeFields fields with
      | Except.ok fs => Except.ok (Value.obj fs)
      | Except.error e => Except.error e
  | Wire.tagged tag data =>
      match registryDeserialize tag with
      | some deserializeFn =>
          match deserializeFn data with
          | some v => Except.ok v
          | none => Except.error ("Malformed data for type: " ++ tag)
      | none => Except.error ("Cannot deserialize unknown type: " ++ tag)

/-- Decode walk over array contents. -/
def decodeList : WireList → Except String ValueList
  | WireList.nil => Except.ok ValueList.nil
  | WireList.cons w t =>
      match decode w with
      | Except.ok v =>
          match decodeList t with
          | Except.ok vs => Except.ok (ValueList.cons v vs)
          | Except.error e => Except.error e
      | Except.error e => Except.error e

/-- Decode walk over plain-object fields. -/
def decodeFields : WireFieldList → Except String FieldList
  | WireFieldList.nil => Except.ok FieldList.nil
  | WireFieldList.cons k w t =>
      match decode w with
      | Except.ok v =>
          match decodeFields t with
          | Except.ok fs => Except.ok (FieldList.cons k v fs)
          | Except.error e => Except.error e
      | Except.error e => Except.error e

end

end Workflow

namespace Workflow

/- ## Round-trip lemmas for the serde registry -/

mutual

/-- Decoding the encoding of any value reconstructs the value exactly. -/
theorem decode_encode_eq : ∀ v : Value, decode (encode v) = Except.ok v
  | Value.num _ => rfl
  | Value.str _ => rfl
  | Value.boolean _ => rfl
  | Value.null => rfl
  | Value.arr elems => by
      rw [encode, decode, decodeList_encodeList_eq elems]
  | Value.obj fields => by
      rw [encode, decode, decodeFields_encodeFields_eq fields]
  | Value.vector x y z => rfl

/-- Decode inverts encode over array contents. -/
theorem decodeList_encodeList_eq :
    ∀ elems : ValueList, decodeList (encodeList elems) = Except.ok elems
  | ValueList.nil => rfl
  | ValueList.cons v t => by
      rw [encodeList, decodeList, decode_encode_eq v, decodeList_encodeList_eq t]

/-- Decode inverts encode over plain-object fields. -/
theorem decodeFields_encodeFields_eq :
    ∀ fields : FieldList, decodeFields (encodeFields fields) = Except.ok fields
  | FieldList.nil => rfl
  | FieldList.cons k v t => by
      rw [encodeFields, decodeFields, decode_encode_eq v, decodeFields_encodeFields_eq t]

end

/-- C8: for every value of the universe — Vector instances in particular,
alone, in arrays, or nested inside plain structures — decode of encode
reconstructs the value exactly (so a decoded Vector is a genuine instance
whose methods remain callable); round-tripping twice in a row is
idempotent (it equals one round trip); and deserialize of serialize on a
Vector yields a Vector with the same x, y, z. -/
theorem serde_roundtrip (v : Value) (x y z : Int) :
    decode (encode v) = Except.ok v
      ∧ (decode (encode v)).bind (fun w => decode (encode w)) = decode (encode v)
      ∧ deserializeVector (serializeVector x y z) = some (Value.vector x y z) := by
  refine ⟨decode_encode_eq v, ?_, rfl⟩
  rw [decode_encode_eq v]
  show decode (encode v) = Except.ok v
  exact decode_encode_eq v

end Workflow
